import Mathlib

/-!
Shallow embedding of the flights2go-scraper search pipeline:
`src/scrapers/flights_multi.py`, `src/scrapers/hotels_booking.py` and
`src/main.py`.

Modelling conventions: Python floats that only carry exact decimal
arithmetic (prices, budgets, durations) are modelled as rationals;
per-date and per-destination failures, and the Python exceptions the
source catches with a bare `except: continue`, are modelled as
`Option.none`; calendar dates are modelled as proleptic-Gregorian day
numbers (what `datetime` + `timedelta` arithmetic computes internally).
-/

namespace Flights2Go

/-- A per-date flight quote as produced by `scrape_kayak_price`
(`flights_multi.py` lines 145-150).  `durationHours` is optional because
`FlightInfo.duration_hours` is `Optional[float]` in `main.py`. -/
structure FlightQuote where
  price : Rat
  stops : Nat
  durationHours : Option Rat
  hasBaggage : Bool
deriving DecidableEq

/-- One entry of the result list built by `scrape_flights_multi`
(`flights_multi.py` lines 235-246). -/
structure FlightResult where
  city : String
  country : String
  code : String
  flag : String
  price : Rat
  stops : Nat
  durationHours : Option Rat
  hasBaggage : Bool
  airline : Option String
  affiliateUrl : String
deriving DecidableEq

/-- The accumulator step of Python's `min(valid_prices, key=lambda x: x["price"])`
(`flights_multi.py` line 217): the current best is replaced only on a
strictly smaller price, so the first minimal element wins. -/
def minByPrice (b x : FlightQuote) : FlightQuote :=
  if x.price < b.price then x else b

/-- `min(valid_prices, key=lambda x: x["price"])` on the list of valid
per-date quotes (`flights_multi.py` line 217); `none` on an empty list
(the `if not valid_prices: continue` guard at line 213). -/
def bestFlight : List FlightQuote → Option FlightQuote
  | [] => none
  | q :: qs => some (qs.foldl minByPrice q)

/-- The stop-count clause `max_stops >= 0 and best_flight["stops"] > max_stops`
(`flights_multi.py` line 223). -/
def stopsReject (maxStops : Int) (stops : Nat) : Bool :=
  decide (0 ≤ maxStops) && decide (maxStops < (stops : Int))

/-- The duration clause `max_duration > 0 and best_flight["duration_hours"] > max_duration`
(`flights_multi.py` line 226).  When the filter is active and the duration
is `None`, the Python comparison `None > int` raises `TypeError`; that
exception is caught by the per-destination handler (lines 248-250), so the
outcome is modelled as `none` here ("the comparison itself fails"). -/
def durationCheck (maxDuration : Int) (dur : Option Rat) : Option Bool :=
  if 0 < maxDuration then
    match dur with
    | none => none
    | some d => some (decide ((maxDuration : Rat) < d))
  else some false

/-- The baggage clause `baggage_included and not best_flight["has_baggage"]`
(`flights_multi.py` line 229). -/
def baggageReject (baggageIncluded hasBaggage : Bool) : Bool :=
  baggageIncluded && !hasBaggage

/-- The post-reduction filter block of `scrape_flights_multi`
(`flights_multi.py` lines 219-230), applied to the reduced best flight:
`none` models the `continue` (destination dropped), including the
`TypeError` path of an unknown duration under an active duration filter. -/
def applyFilters (maxBudget : Rat) (maxStops maxDuration : Int)
    (baggageIncluded : Bool) (q : FlightQuote) : Option FlightQuote :=
  if maxBudget < q.price then none
  else if stopsReject maxStops q.stops then none
  else
    match durationCheck maxDuration q.durationHours with
    | none => none
    | some true => none
    | some false =>
      if baggageReject baggageIncluded q.hasBaggage then none else some q

/-- One destination's reduction-plus-filter stage (`flights_multi.py`
lines 210-230): reduce the valid per-date quotes with `min`, then apply
the filter block. -/
def destinationResult (maxBudget : Rat) (maxStops maxDuration : Int)
    (baggageIncluded : Bool) (quotes : List FlightQuote) : Option FlightQuote :=
  match bestFlight quotes with
  | none => none
  | some b => applyFilters maxBudget maxStops maxDuration baggageIncluded b

/-- The rejection predicate exactly as the code behaves (`flights_multi.py`
lines 219-230 with Python semantics): an unknown duration under an active
duration filter is rejected (via the caught `TypeError`). -/
def codeFilterReject (maxBudget : Rat) (maxStops maxDuration : Int)
    (baggageIncluded : Bool) (q : FlightQuote) : Prop :=
  maxBudget < q.price
    ∨ (0 ≤ maxStops ∧ maxStops < (q.stops : Int))
    ∨ (0 < maxDuration ∧
        (q.durationHours = none
          ∨ ∃ d, q.durationHours = some d ∧ (maxDuration : Rat) < d))
    ∨ (baggageIncluded = true ∧ q.hasBaggage = false)

/-- The rejection predicate exactly as the claim words it: a quote whose
duration is unknown always passes the duration filter.  (Spec-side
definition, for comparison with `codeFilterReject`.) -/
def claimFilterReject (maxBudget : Rat) (maxStops maxDuration : Int)
    (baggageIncluded : Bool) (q : FlightQuote) : Prop :=
  maxBudget < q.price
    ∨ (0 ≤ maxStops ∧ maxStops < (q.stops : Int))
    ∨ (0 < maxDuration ∧ ∃ d, q.durationHours = some d ∧ (maxDuration : Rat) < d)
    ∨ (baggageIncluded = true ∧ q.hasBaggage = false)

/-- Stop-count inference of `scrape_kayak_price` (`flights_multi.py`
line 137): 0 if the page text contains "Direct" or "Nonstop", else 1.
`containsSeq` is Python's substring `in`. -/
def containsSeq (needle : List Char) : List Char → Bool
  | [] => needle.isEmpty
  | c :: cs => needle.isPrefixOf (c :: cs) || containsSeq needle cs

/-- `stops = 0 if "Direct" in body_text or "Nonstop" in body_text else 1`
(`flights_multi.py` line 137). -/
def parseStops (bodyText : String) : Nat :=
  if containsSeq (("Direct").toList) bodyText.toList
      || containsSeq (("Nonstop").toList) bodyText.toList then 0 else 1

/-- The date-sampling offsets of `scrape_flights_multi` (`flights_multi.py`
lines 192-196): `min(5, delta + 1)` offsets, stepped by `delta // 5` when
`delta >= 5`, else consecutive days. -/
def sampleOffsets (delta : Nat) : List Nat :=
  (List.range (min 5 (delta + 1))).map (fun i => if 5 ≤ delta then delta / 5 * i else i)

/-- The sampled dates, as day numbers `start + offset`
(`flights_multi.py` line 195). -/
def sampleDates (startDay delta : Nat) : List Nat :=
  (sampleOffsets delta).map (fun o => startDay + o)

/-- The per-destination collection loop of `scrape_flights_multi`
(`flights_multi.py` lines 200-250) and the per-flight package loop of
`search_packages` (`main.py` lines 127-182): each destination's whole body
either appends one result or is skipped (absent quote, filter rejection,
or a caught exception — all modelled as `none`). -/
def collectResults {α : Type} (probe : String → Option α) (dests : List String) : List α :=
  dests.filterMap probe

/-- `sorted(results, key=lambda x: x['price'])` (`flights_multi.py`
line 253): Python's stable sort, modelled by stable insertion sort. -/
def sortResultsByPrice (l : List FlightResult) : List FlightResult :=
  l.insertionSort (fun a b => a.price ≤ b.price)

/-- The whole of `scrape_flights_multi` after date sampling: collect one
optional result per destination, then sort by price. -/
def scrapeFlightsMulti (probe : String → Option FlightResult) (dests : List String) :
    List FlightResult :=
  sortResultsByPrice (collectResults probe dests)

/-- The French month-name table shared by `parse_period`
(`flights_multi.py` lines 68-71) and `parse_period_to_dates`
(`hotels_booking.py` lines 27-30). -/
def monthsTable : List (String × Nat) :=
  [(("Janvier"), 1), (("Février"), 2), (("Mars"), 3), (("Avril"), 4),
   (("Mai"), 5), (("Juin"), 6), (("Juillet"), 7), (("Août"), 8),
   (("Septembre"), 9), (("Octobre"), 10), (("Novembre"), 11), (("Décembre"), 12)]

/-- Python dict lookup `months[month_name]`; `none` models the `KeyError`. -/
def lookupMonth (name : List Char) : Option Nat :=
  (monthsTable.find? (fun p => p.1.toList == name)).map (fun p => p.2)

/-- Python's `s.split(' ')` with an explicit separator: split at every
space, keeping empty fields. -/
def splitOnChar (sep : Char) : List Char → List (List Char)
  | [] => [[]]
  | c :: cs =>
    match splitOnChar sep cs with
    | [] => [[c]]
    | w :: ws => if c = sep then [] :: w :: ws else (c :: w) :: ws

/-- Python's `int(yearStr)` restricted to plain digit strings; `none`
models the `ValueError`. -/
def parseYear (cs : List Char) : Option Nat :=
  if cs ≠ [] ∧ cs.all (fun c => c.isDigit) then
    some (cs.foldl (fun n c => 10 * n + (c.toNat - 48)) 0)
  else none

/-- The descriptor-parsing front half of `parse_period_to_dates`
(`hotels_booking.py` lines 27-36): split on a space into exactly
month-name and year, look the month up, parse the year, and require it in
`datetime`'s representable range (`MINYEAR = 1`, `MAXYEAR = 9999`).
`none` models the raised `ValueError`/`KeyError`. -/
def resolveYM (period : String) : Option (Nat × Nat) :=
  match splitOnChar (' ') period.toList with
  | [monthName, yearStr] =>
    match lookupMonth monthName, parseYear yearStr with
    | some m, some y => if 1 ≤ y ∧ y ≤ 9999 then some (y, m) else none
    | _, _ => none
  | _ => none

/-- Proleptic-Gregorian day number of a civil date (the day-count
arithmetic underlying Python's `datetime`/`timedelta`). -/
def rataDie (y m d : Nat) : Int :=
  let yAdj : Nat := if m ≤ 2 then y - 1 else y
  let era : Nat := yAdj / 400
  let yoe : Nat := yAdj % 400
  let mp : Nat := if 2 < m then m - 3 else m + 9
  let doy : Nat := (153 * mp + 2) / 5 + d - 1
  let doe : Nat := yoe * 365 + yoe / 4 - yoe / 100 + doy
  (era : Int) * 146097 + (doe : Int) - 719468

/-- Smallest day number `datetime` can represent (`date.min`, 0001-01-01). -/
def minRataDie : Int := rataDie 1 1 1

/-- Largest day number `datetime` can represent (`date.max`, 9999-12-31). -/
def maxRataDie : Int := rataDie 9999 12 31

/-- `parse_period_to_dates` (`hotels_booking.py` lines 25-42): check-in is
the 15th of the resolved month (`datetime(int(year), month, 15)`),
check-out is `checkin + timedelta(days=nights)`; dates are returned as day
numbers.  `nights` is not validated anywhere (`SearchRequest` in `main.py`
lines 30-35 imposes no bound either); the only failures are an
unresolvable descriptor and a check-out outside `datetime`'s range
(`OverflowError`). -/
def parse_period_to_dates (period : String) (nights : Int) : Option (Int × Int) :=
  match resolveYM period with
  | none => none
  | some (y, m) =>
    let checkin := rataDie y m 15
    let checkout := checkin + nights
    if minRataDie ≤ checkout ∧ checkout ≤ maxRataDie then some (checkin, checkout)
    else none

/-- A lodging quote as returned by `scrape_hotels_booking` /
`get_mock_hotels` (`hotels_booking.py`). -/
structure Hotel where
  name : String
  pricePerNight : Rat
  rating : Rat
  accommodationType : String
deriving DecidableEq

/-- The lodging provider's keep-predicate: price within the nightly
ceiling, rating at least the minimum, matching type
(`hotels_booking.py` lines 253-260; the scrape path applies the same
price ceiling at line 155). -/
def hotelKeep (maxPrice minRating : Rat) (accType : String) (h : Hotel) : Bool :=
  !(decide (maxPrice < h.pricePerNight)) && !(decide (h.rating < minRating))
    && !((accType != ("all")) && (h.accommodationType != accType))

/-- The lodging provider's filtering of its candidate quotes
(`hotels_booking.py` lines 252-264). -/
def hotelsFilter (maxPrice minRating : Rat) (accType : String) (hs : List Hotel) : List Hotel :=
  hs.filter (hotelKeep maxPrice minRating accType)

/-- A `TravelPackage`'s priced fields (`main.py` lines 53-62, 147-176). -/
structure TravelPackage where
  code : String
  flightPrice : Rat
  hotelPricePerNight : Rat
  hotelTotalPrice : Rat
  totalCost : Rat
  budgetRemaining : Rat
  savingsPct : Rat
deriving DecidableEq

/-- `max_hotel_per_night = (request.budget - flight["price"]) / request.nights`
(`main.py` lines 129-130). -/
def nightlyCeiling (budget flightPrice nights : Rat) : Rat :=
  (budget - flightPrice) / nights

/-- Package construction (`main.py` lines 147-176): total hotel cost,
total package cost, remaining budget and savings percentage. -/
def mkPackage (budget nights : Rat) (code : String) (flightPrice pricePerNight : Rat) :
    TravelPackage :=
  { code := code
    flightPrice := flightPrice
    hotelPricePerNight := pricePerNight
    hotelTotalPrice := pricePerNight * nights
    totalCost := flightPrice + pricePerNight * nights
    budgetRemaining := budget - (flightPrice + pricePerNight * nights)
    savingsPct := (budget - (flightPrice + pricePerNight * nights)) / budget * 100 }

/-- One iteration of the per-flight package loop (`main.py` lines
127-145): compute the nightly ceiling, query the lodging provider (its
candidate pool filtered by the ceiling and the filters), skip the
destination on an empty result (`if not hotels: continue`), otherwise take
the provider's first quote (`best_hotel = hotels[0]`). -/
def assemblePackage (budget nights minRating : Rat) (accType code : String)
    (flightPrice : Rat) (candidates : List Hotel) : Option TravelPackage :=
  match hotelsFilter (nightlyCeiling budget flightPrice nights) minRating accType candidates with
  | [] => none
  | h :: _ => some (mkPackage budget nights code flightPrice h.pricePerNight)

/-- `packages.sort(key=lambda x: x.budget_remaining, reverse=True)`
(`main.py` line 185): Python's stable descending sort, modelled by stable
insertion sort on the reversed comparison. -/
def rankPackages (l : List TravelPackage) : List TravelPackage :=
  l.insertionSort (fun a b => b.budgetRemaining ≤ a.budgetRemaining)

/-- Concrete quote: price 100, one stop (counterexample material). -/
def cexQuoteA : FlightQuote :=
  { price := 100, stops := 1, durationHours := some 10, hasBaggage := false }

/-- Concrete quote: price 100, nonstop, shorter duration. -/
def cexQuoteB : FlightQuote :=
  { price := 100, stops := 0, durationHours := some 5, hasBaggage := false }

/-- Concrete quote with unknown duration. -/
def cexUnknownDur : FlightQuote :=
  { price := 100, stops := 0, durationHours := none, hasBaggage := true }

/-- Concrete quote passing every filter. -/
def cexPassQuote : FlightQuote :=
  { price := 100, stops := 0, durationHours := some 4, hasBaggage := true }

/-- Concrete per-destination result for MAD (iterated before FCO in
`ALL_DESTINATIONS`, `main.py` line 70-72). -/
def cexResultMAD : FlightResult :=
  { city := ("Madrid"), country := ("Espagne"), code := ("MAD"), flag := ("ES")
    price := 100, stops := 0, durationHours := some 7, hasBaggage := false
    airline := none, affiliateUrl := ("kayakMAD") }

/-- Concrete per-destination result for FCO, same price as MAD. -/
def cexResultFCO : FlightResult :=
  { city := ("Rome"), country := ("Italie"), code := ("FCO"), flag := ("IT")
    price := 100, stops := 0, durationHours := some 8, hasBaggage := false
    airline := none, affiliateUrl := ("kayakFCO") }

/-- Probe returning the two equal-price results above. -/
def cexProbe : String → Option FlightResult :=
  fun c => if c = ("MAD") then some cexResultMAD
           else if c = ("FCO") then some cexResultFCO else none

/-- Concrete lodging quote. -/
def cexHotel : Hotel :=
  { name := ("H1"), pricePerNight := 80, rating := 4, accommodationType := ("hotel") }

/-- Concrete package with more budget left (total budget 1500). -/
def cexPkgHigh : TravelPackage :=
  { code := ("BCN"), flightPrice := 500, hotelPricePerNight := 80
    hotelTotalPrice := 560, totalCost := 1060, budgetRemaining := 440
    savingsPct := 440 / 1500 * 100 }

/-- Concrete package with less budget left (total budget 1500). -/
def cexPkgLow : TravelPackage :=
  { code := ("CDG"), flightPrice := 900, hotelPricePerNight := 60
    hotelTotalPrice := 300, totalCost := 1200, budgetRemaining := 300
    savingsPct := 300 / 1500 * 100 }

/-! ### Stable-sort helper lemmas

Python's `sorted`/`list.sort` are stable; the embedding uses
`List.insertionSort`, which processes elements from the right and inserts
an element strictly before the first element it compares `≤` to, hence is
stable for the (total, transitive) key comparisons used here.  Stability
is characterised by `filter` on each key value being unchanged. -/

theorem filter_orderedInsert_ne {α : Type} (key : α → Rat) (r : α → α → Prop) [DecidableRel r]
    (a : α) (c : Rat) (ha : key a ≠ c) (l : List α) :
    (List.orderedInsert r a l).filter (fun x => decide (key x = c)) =
      l.filter (fun x => decide (key x = c)) := by
  induction l with
  | nil => simp [List.orderedInsert, ha]
  | cons b l ih =>
    by_cases hr : r a b
    · simp [List.orderedInsert, hr, ha]
    · simp only [List.orderedInsert, if_neg hr, List.filter_cons, ih]

theorem filter_orderedInsert_eq {α : Type} (key : α → Rat) (r : α → α → Prop) [DecidableRel r]
    (a : α) (c : Rat) (hc : key a = c) (hmin : ∀ b, ¬ r a b → key b ≠ c) (l : List α) :
    (List.orderedInsert r a l).filter (fun x => decide (key x = c)) =
      a :: l.filter (fun x => decide (key x = c)) := by
  induction l with
  | nil => simp [List.orderedInsert, hc]
  | cons b l ih =>
    by_cases hr : r a b
    · simp [List.orderedInsert, hr, hc]
    · have hb : key b ≠ c := hmin b hr
      simp [List.orderedInsert, hr, List.filter_cons, hb, ih]

theorem filter_insertionSort {α : Type} (key : α → Rat) (r : α → α → Prop) [DecidableRel r]
    (hr : ∀ a b, ¬ r a b → key b ≠ key a) (c : Rat) (l : List α) :
    (l.insertionSort r).filter (fun x => decide (key x = c)) =
      l.filter (fun x => decide (key x = c)) := by
  induction l with
  | nil => rfl
  | cons a l ih =>
    rw [List.insertionSort]
    by_cases hc : key a = c
    · rw [filter_orderedInsert_eq key r a c hc (fun b hb => hc ▸ hr a b hb) _, ih,
        List.filter_cons, if_pos (by simp [hc])]
    · rw [filter_orderedInsert_ne key r a c hc _, ih, List.filter_cons,
        if_neg (by simp [hc])]

/-- C4 (amended): the surviving flight results returned by
`scrape_flights_multi` are sorted ascending by price, and the sort is a
stable permutation of the collected per-destination results — quotes with
equal price keep the destination-iteration order of the input, they are
NOT reordered by destination code. -/
theorem c4_price_sort_stable (probe : String → Option FlightResult) (dests : List String) :
    List.Sorted (fun a b : FlightResult => a.price ≤ b.price) (scrapeFlightsMulti probe dests)
      ∧ (scrapeFlightsMulti probe dests).Perm (collectResults probe dests)
      ∧ ∀ c : Rat,
          (scrapeFlightsMulti probe dests).filter (fun x => decide (x.price = c)) =
            (collectResults probe dests).filter (fun x => decide (x.price = c)) := by
  unfold scrapeFlightsMulti sortResultsByPrice
  refine ⟨?_, ?_, ?_⟩
  · haveI : IsTotal FlightResult (fun a b => a.price ≤ b.price) := ⟨fun a b => le_total _ _⟩
    haveI : IsTrans FlightResult (fun a b => a.price ≤ b.price) :=
      ⟨fun a b c hab hbc => le_trans hab hbc⟩
    exact List.sorted_insertionSort _ _
  · exact List.perm_insertionSort _ _
  · intro c
    exact filter_insertionSort (fun x : FlightResult => x.price) _
      (fun a b h => ne_of_lt (lt_of_not_le h)) c _

/-- C4 counterexample: two surviving destinations with equal prices, MAD
iterated before FCO (as in `ALL_DESTINATIONS`); the returned order keeps
MAD first although FCO's destination code is strictly smaller, so equal
prices are NOT ordered by destination code. -/
theorem c4_counterexample :
    scrapeFlightsMulti cexProbe [("MAD"), ("FCO")] = [cexResultMAD, cexResultFCO]
      ∧ cexResultFCO.code < cexResultMAD.code
      ∧ cexResultMAD.price = cexResultFCO.price := by
  refine ⟨by decide, ?_, by decide⟩
  rw [String.lt_iff_toList_lt]
  decide

/-- C7: the ranker sorts packages descending by remaining budget; the sort
is stable; on a tie in remaining budget the earlier package's total cost
is no larger (for packages assembled against one total budget, equal
remaining budget forces equal total cost); and an input already sorted
descending is returned unchanged. -/
theorem c7_ranker (l : List TravelPackage) (B : Rat)
    (hB : ∀ p ∈ l, p.budgetRemaining = B - p.totalCost) :
    List.Sorted (fun a b : TravelPackage => b.budgetRemaining ≤ a.budgetRemaining)
        (rankPackages l)
      ∧ (rankPackages l).Pairwise
          (fun a b => a.budgetRemaining = b.budgetRemaining → a.totalCost ≤ b.totalCost)
      ∧ (∀ c : Rat,
          (rankPackages l).filter (fun p => decide (p.budgetRemaining = c)) =
            l.filter (fun p => decide (p.budgetRemaining = c)))
      ∧ (List.Sorted (fun a b : TravelPackage => b.budgetRemaining ≤ a.budgetRemaining) l →
          rankPackages l = l) := by
  have hperm : (rankPackages l).Perm l := List.perm_insertionSort _ _
  refine ⟨?_, ?_, ?_, ?_⟩
  · haveI : IsTotal TravelPackage (fun a b => b.budgetRemaining ≤ a.budgetRemaining) :=
      ⟨fun a b => le_total _ _⟩
    haveI : IsTrans TravelPackage (fun a b => b.budgetRemaining ≤ a.budgetRemaining) :=
      ⟨fun a b c hab hbc => le_trans hbc hab⟩
    exact List.sorted_insertionSort _ _
  · refine List.pairwise_of_forall_mem_list ?_
    intro a ha b hb hab
    have h1 := hB a (hperm.mem_iff.mp ha)
    have h2 := hB b (hperm.mem_iff.mp hb)
    have : a.totalCost = b.totalCost := by linarith
    exact this.le
  · intro c
    exact filter_insertionSort (fun p : TravelPackage => p.budgetRemaining) _
      (fun a b h => ne_of_gt (lt_of_not_le h)) c _
  · intro hs
    exact List.Sorted.insertionSort_eq hs

/-- C7 witness at a concrete two-package list with total budget 1500. -/
theorem c7_ranker_witness :
    List.Sorted (fun a b : TravelPackage => b.budgetRemaining ≤ a.budgetRemaining)
        (rankPackages [cexPkgLow, cexPkgHigh])
      ∧ (rankPackages [cexPkgLow, cexPkgHigh]).Pairwise
          (fun a b => a.budgetRemaining = b.budgetRemaining → a.totalCost ≤ b.totalCost)
      ∧ (∀ c : Rat,
          (rankPackages [cexPkgLow, cexPkgHigh]).filter (fun p => decide (p.budgetRemaining = c)) =
            [cexPkgLow, cexPkgHigh].filter (fun p => decide (p.budgetRemaining = c)))
      ∧ (List.Sorted (fun a b : TravelPackage => b.budgetRemaining ≤ a.budgetRemaining)
            [cexPkgLow, cexPkgHigh] →
          rankPackages [cexPkgLow, cexPkgHigh] = [cexPkgLow, cexPkgHigh]) :=
  c7_ranker [cexPkgLow, cexPkgHigh] 1500 (by
    intro p hp
    fin_cases hp <;> norm_num [cexPkgLow, cexPkgHigh])

/-- C8: for every period of `delta + 1` days, the date sampler returns
exactly `min 5 (delta + 1)` dates, pairwise distinct and strictly
increasing (hence non-decreasing), all within the period's bounds; the
sampler is a pure function, hence deterministic. -/
theorem c8_period_sampler (startDay delta : Nat) :
    (sampleDates startDay delta).length = min 5 (delta + 1)
      ∧ List.Pairwise (· < ·) (sampleDates startDay delta)
      ∧ ∀ d ∈ sampleDates startDay delta, startDay ≤ d ∧ d ≤ startDay + delta := by
  refine ⟨?_, ?_, ?_⟩
  · simp [sampleDates, sampleOffsets]
  · have h0 : List.Pairwise (· < ·) (List.range (min 5 (delta + 1))) :=
      List.pairwise_lt_range _
    have h1 : List.Pairwise (· < ·) (sampleOffsets delta) := by
      unfold sampleOffsets
      refine h0.map _ ?_
      intro i j hij
      by_cases h5 : 5 ≤ delta
      · simp only [if_pos h5]
        have hpos : 0 < delta / 5 := Nat.div_pos h5 (by norm_num)
        exact mul_lt_mul_of_pos_left hij hpos
      · simp only [if_neg h5]
        exact hij
    unfold sampleDates
    refine h1.map _ ?_
    intro a b hab
    exact Nat.add_lt_add_left hab startDay
  · intro d hd
    simp only [sampleDates, sampleOffsets, List.mem_map, List.mem_range] at hd
    obtain ⟨o, ho, rfl⟩ := hd
    refine ⟨Nat.le_add_right _ _, Nat.add_le_add_left ?_ _⟩
    obtain ⟨i, hi, rfl⟩ := ho
    by_cases h5 : 5 ≤ delta
    · rw [if_pos h5]
      have hmin : min 5 (delta + 1) ≤ 5 := Nat.min_le_left _ _
      calc delta / 5 * i ≤ delta / 5 * 5 := Nat.mul_le_mul_left _ (by omega)
        _ ≤ delta := Nat.div_mul_le_self delta 5
    · rw [if_neg h5]
      have hmin : min 5 (delta + 1) ≤ delta + 1 := Nat.min_le_right _ _
      omega

/-- C2: the assembled package's derived fields satisfy
total cost = flight price + price-per-night × nights,
budget remaining = budget − total cost,
savings percentage = remaining / budget × 100; recomputing the total from
the stored flight price, price-per-night and nights reproduces the stored
total cost; and the Budget Allocator's nightly ceiling satisfies
ceiling × nights + flight price ≤ budget (with equality). -/
theorem c2_package_invariants (budget nights : Rat) (code : String) (fp ppn : Rat)
    (hn : nights ≠ 0) :
    (mkPackage budget nights code fp ppn).totalCost = fp + ppn * nights
      ∧ (mkPackage budget nights code fp ppn).budgetRemaining =
          budget - (mkPackage budget nights code fp ppn).totalCost
      ∧ (mkPackage budget nights code fp ppn).savingsPct =
          (mkPackage budget nights code fp ppn).budgetRemaining / budget * 100
      ∧ (mkPackage budget nights code fp ppn).flightPrice +
            (mkPackage budget nights code fp ppn).hotelPricePerNight * nights =
          (mkPackage budget nights code fp ppn).totalCost
      ∧ nightlyCeiling budget fp nights * nights + fp ≤ budget := by
  refine ⟨rfl, rfl, rfl, rfl, ?_⟩
  have h : nightlyCeiling budget fp nights * nights + fp = budget := by
    show (budget - fp) / nights * nights + fp = budget
    rw [div_mul_cancel₀ _ hn]
    ring
  exact h.le

/-- C2 witness at the spec's concrete scenario (budget 1500, 7 nights,
flight 500, lodging 80/night). -/
theorem c2_package_invariants_witness :
    (mkPackage 1500 7 ("BCN") 500 80).totalCost = 500 + 80 * 7
      ∧ (mkPackage 1500 7 ("BCN") 500 80).budgetRemaining =
          1500 - (mkPackage 1500 7 ("BCN") 500 80).totalCost
      ∧ (mkPackage 1500 7 ("BCN") 500 80).savingsPct =
          (mkPackage 1500 7 ("BCN") 500 80).budgetRemaining / 1500 * 100
      ∧ (mkPackage 1500 7 ("BCN") 500 80).flightPrice +
            (mkPackage 1500 7 ("BCN") 500 80).hotelPricePerNight * 7 =
          (mkPackage 1500 7 ("BCN") 500 80).totalCost
      ∧ nightlyCeiling 1500 500 7 * 7 + 500 ≤ 1500 :=
  c2_package_invariants 1500 7 ("BCN") 500 80 (by norm_num)

/-- C10: every per-date quote's inferred stop count is 0 or 1 (0 exactly
when the page text contains "Direct" or "Nonstop"), so with
`maxStops ≥ 1` the post-reduction stops clause rejects nothing. -/
theorem c10_stops_domain (body : String) (maxStops : Int) (h1 : 1 ≤ maxStops) :
    (parseStops body = 0 ∨ parseStops body = 1)
      ∧ stopsReject maxStops (parseStops body) = false := by
  have hle : parseStops body ≤ 1 := by
    unfold parseStops; split <;> omega
  constructor
  · omega
  · have hcast : ((parseStops body : Int)) ≤ 1 := by exact_mod_cast hle
    unfold stopsReject
    have hlt : ¬ (maxStops < (parseStops body : Int)) := by omega
    simp [hlt]

/-- C10 witness at a concrete page text and `maxStops = 1`. -/
theorem c10_stops_domain_witness :
    (parseStops ("Nonstop service") = 0 ∨ parseStops ("Nonstop service") = 1)
      ∧ stopsReject 1 (parseStops ("Nonstop service")) = false :=
  c10_stops_domain ("Nonstop service") 1 (by norm_num)

/-- C5: a failure confined to one destination `d` (its probe/assembly
body yields `none` instead of a result — absent quote, timeout, provider
error, filter rejection or a caught exception) leaves every other
destination's result in place: the collected output equals the output
with `d` removed from the candidate list, it is a sublist of the
unimpaired output (only the result list shrinks — no error escapes, the
collector is total), and every other destination's successful result
still appears. -/
theorem c5_failure_isolation {α : Type} (f fAlt : String → Option α) (d : String)
    (hd : fAlt d = none) (hoth : ∀ x, x ≠ d → fAlt x = f x) (ds : List String) :
    collectResults fAlt ds = collectResults f (ds.filter (fun x => decide (x ≠ d)))
      ∧ (collectResults fAlt ds).Sublist (collectResults f ds)
      ∧ ∀ x q, x ∈ ds → x ≠ d → f x = some q → q ∈ collectResults fAlt ds := by
  have hmain : collectResults fAlt ds =
      collectResults f (ds.filter (fun x => decide (x ≠ d))) := by
    unfold collectResults
    induction ds with
    | nil => rfl
    | cons a tl ih =>
      by_cases ha : a = d
      · subst ha
        simpa [List.filterMap_cons, hd, List.filter_cons] using ih
      · have hfa := hoth a ha
        cases hfl : f a with
        | none => simpa [List.filterMap_cons, List.filter_cons, ha, hfa, hfl] using ih
        | some v => simpa [List.filterMap_cons, List.filter_cons, ha, hfa, hfl] using ih
  refine ⟨hmain, ?_, ?_⟩
  · rw [hmain]
    unfold collectResults
    exact List.Sublist.filterMap f (List.filter_sublist _)
  · intro x q hx hxd hfq
    unfold collectResults
    exact List.mem_filterMap.mpr ⟨x, hx, by rw [hoth x hxd]; exact hfq⟩

/-- C5 witness: LIS's probe fails, BCN's and MAD's results survive. -/
theorem c5_failure_isolation_witness :
    (collectResults (fun x => if x = ("LIS") then none else some x)
        [("BCN"), ("LIS"), ("MAD")] =
      collectResults (fun x : String => some x)
        ([("BCN"), ("LIS"), ("MAD")].filter (fun x => decide (x ≠ ("LIS")))))
      ∧ (collectResults (fun x => if x = ("LIS") then none else some x)
          [("BCN"), ("LIS"), ("MAD")]).Sublist
          (collectResults (fun x : String => some x) [("BCN"), ("LIS"), ("MAD")])
      ∧ ∀ x q, x ∈ [("BCN"), ("LIS"), ("MAD")] → x ≠ ("LIS") →
          (fun x : String => some x) x = some q →
          q ∈ collectResults (fun x => if x = ("LIS") then none else some x)
              [("BCN"), ("LIS"), ("MAD")] :=
  c5_failure_isolation (fun x : String => some x)
    (fun x => if x = ("LIS") then none else some x) ("LIS")
    (if_pos rfl) (fun _ hx => if_neg hx) [("BCN"), ("LIS"), ("MAD")]

/-- Python's `min(..., key=price)` accumulator yields the first element of
the list attaining the minimal price: the traversed prefix before it holds
only strictly more expensive quotes, and nothing in the list is cheaper. -/
theorem foldl_minByPrice (qs : List FlightQuote) :
    ∀ b : FlightQuote, ∃ (m : FlightQuote) (l₁ l₂ : List FlightQuote),
      qs.foldl minByPrice b = m ∧ b :: qs = l₁ ++ m :: l₂
        ∧ (∀ x ∈ l₁, m.price < x.price) ∧ ∀ x ∈ b :: qs, m.price ≤ x.price := by
  induction qs with
  | nil =>
    intro b
    refine ⟨b, [], [], rfl, rfl, by simp, ?_⟩
    intro x hx
    rw [List.mem_singleton.mp hx]
  | cons x xs ih =>
    intro b
    rw [List.foldl_cons]
    by_cases hx : x.price < b.price
    · rw [show minByPrice b x = x from if_pos hx]
      obtain ⟨m, l₁, l₂, h1, h2, h3, h4⟩ := ih x
      have hmx : m.price ≤ x.price := h4 x (List.mem_cons_self _ _)
      refine ⟨m, b :: l₁, l₂, h1, ?_, ?_, ?_⟩
      · rw [List.cons_append, ← h2]
      · intro y hy
        rcases List.mem_cons.mp hy with rfl | hy'
        · exact lt_of_le_of_lt hmx hx
        · exact h3 y hy'
      · intro y hy
        rcases List.mem_cons.mp hy with rfl | hy'
        · exact le_of_lt (lt_of_le_of_lt hmx hx)
        · exact h4 y hy'
    · rw [show minByPrice b x = b from if_neg hx]
      have hbx : b.price ≤ x.price := le_of_not_lt hx
      obtain ⟨m, l₁, l₂, h1, h2, h3, h4⟩ := ih b
      rcases l₁ with _ | ⟨c, l₁'⟩
      · obtain ⟨rfl, rfl⟩ : b = m ∧ xs = l₂ := by
          rw [List.nil_append] at h2
          exact ⟨(List.cons.injEq _ _ _ _).mp h2 |>.1, (List.cons.injEq _ _ _ _).mp h2 |>.2⟩
        refine ⟨b, [], x :: xs, h1, rfl, by simp, ?_⟩
        intro y hy
        rcases List.mem_cons.mp hy with rfl | hy'
        · exact le_refl _
        · rcases List.mem_cons.mp hy' with rfl | hy''
          · exact hbx
          · exact h4 y (List.mem_cons_of_mem _ hy'')
      · rw [List.cons_append] at h2
        obtain ⟨rfl, hxs⟩ : b = c ∧ xs = l₁' ++ m :: l₂ :=
          ⟨(List.cons.injEq _ _ _ _).mp h2 |>.1, (List.cons.injEq _ _ _ _).mp h2 |>.2⟩
        have hmb : m.price < b.price := h3 b (List.mem_cons_self _ _)
        refine ⟨m, b :: x :: l₁', l₂, h1, ?_, ?_, ?_⟩
        · rw [List.cons_append, List.cons_append, hxs]
        · intro y hy
          rcases List.mem_cons.mp hy with rfl | hy'
          · exact hmb
          · rcases List.mem_cons.mp hy' with rfl | hy''
            · exact lt_of_lt_of_le hmb hbx
            · exact h3 y (List.mem_cons_of_mem _ hy'')
        · intro y hy
          rcases List.mem_cons.mp hy with rfl | hy'
          · exact h4 y (List.mem_cons_self _ _)
          · rcases List.mem_cons.mp hy' with rfl | hy''
            · exact le_of_lt (lt_of_lt_of_le hmb hbx)
            · exact h4 y (List.mem_cons_of_mem _ (hxs ▸ hy''))

/-- C3 (amended): the per-destination reduction returns the FIRST quote
(in completion/collection order) attaining the cheapest price; price ties
are broken by position, not by stops or duration, so for tied prices the
result depends on the order of the collection. -/
theorem c3_reduction_first_min (l : List FlightQuote) (hne : l ≠ []) :
    ∃ (m : FlightQuote) (l₁ l₂ : List FlightQuote),
      bestFlight l = some m ∧ l = l₁ ++ m :: l₂
        ∧ (∀ x ∈ l₁, m.price < x.price) ∧ ∀ x ∈ l, m.price ≤ x.price := by
  rcases l with _ | ⟨q, qs⟩
  · exact absurd rfl hne
  · obtain ⟨m, l₁, l₂, h1, h2, h3, h4⟩ := foldl_minByPrice qs q
    exact ⟨m, l₁, l₂, by rw [bestFlight, h1], h2, h3, h4⟩

/-- C3 witness at a concrete singleton collection. -/
theorem c3_reduction_first_min_witness :
    ∃ (m : FlightQuote) (l₁ l₂ : List FlightQuote),
      bestFlight [cexQuoteB] = some m ∧ [cexQuoteB] = l₁ ++ m :: l₂
        ∧ (∀ x ∈ l₁, m.price < x.price) ∧ ∀ x ∈ [cexQuoteB], m.price ≤ x.price :=
  c3_reduction_first_min [cexQuoteB] (by simp)

/-- C3 counterexample: two quotes with equal price; the reduction keeps
the first-listed quote with MORE stops (no fewest-stops tie-break), and
swapping the completion order changes the result (no order independence). -/
theorem c3_counterexample :
    bestFlight [cexQuoteA, cexQuoteB] = some cexQuoteA
      ∧ bestFlight [cexQuoteB, cexQuoteA] = some cexQuoteB
      ∧ cexQuoteA.price = cexQuoteB.price
      ∧ cexQuoteB.stops < cexQuoteA.stops
      ∧ cexQuoteA ≠ cexQuoteB := by
  refine ⟨by decide, by decide, by decide, by decide, by decide⟩

/-- The post-reduction filter block returns `none` exactly on the code's
rejection predicate (including the unknown-duration `TypeError` path). -/
theorem applyFilters_none_iff (mb : Rat) (ms md : Int) (bag : Bool) (q : FlightQuote) :
    applyFilters mb ms md bag q = none ↔ codeFilterReject mb ms md bag q := by
  rcases q with ⟨p, st, dur, hbg⟩
  have hstops : (stopsReject ms st = true) ↔ (0 ≤ ms ∧ ms < (st : Int)) := by
    unfold stopsReject; simp
  have hbagg : (baggageReject bag hbg = true) ↔ (bag = true ∧ hbg = false) := by
    unfold baggageReject; cases bag <;> cases hbg <;> simp
  unfold applyFilters
  by_cases h1 : mb < p
  · rw [if_pos h1]
    exact iff_of_true rfl (Or.inl h1)
  · rw [if_neg h1]
    by_cases h2 : stopsReject ms st = true
    · rw [if_pos h2]
      exact iff_of_true rfl (Or.inr (Or.inl (hstops.mp h2)))
    · rw [if_neg h2]
      by_cases h3 : 0 < md
      · cases dur with
        | none =>
          have hdc : durationCheck md none = none := by
            unfold durationCheck; rw [if_pos h3]
          rw [hdc]
          exact iff_of_true rfl (Or.inr (Or.inr (Or.inl ⟨h3, Or.inl rfl⟩)))
        | some d =>
          by_cases h4 : (md : Rat) < d
          · have hdc : durationCheck md (some d) = some true := by
              unfold durationCheck; rw [if_pos h3]; simp [h4]
            rw [hdc]
            exact iff_of_true rfl (Or.inr (Or.inr (Or.inl ⟨h3, Or.inr ⟨d, rfl, h4⟩⟩)))
          · have hdc : durationCheck md (some d) = some false := by
              unfold durationCheck; rw [if_pos h3]; simp [h4]
            simp only [hdc]
            by_cases h5 : baggageReject bag hbg = true
            · rw [if_pos h5]
              exact iff_of_true rfl (Or.inr (Or.inr (Or.inr (hbagg.mp h5))))
            · rw [if_neg h5]
              refine iff_of_false (by simp) ?_
              rintro (h | h | ⟨_, h | ⟨d', hd', hlt⟩⟩ | h)
              · exact h1 h
              · exact h2 (hstops.mpr h)
              · exact Option.noConfusion h
              · rw [Option.some.injEq] at hd'
                exact h4 (hd' ▸ hlt)
              · exact h5 (hbagg.mpr h)
      · have hdc : durationCheck md dur = some false := by
          unfold durationCheck; rw [if_neg h3]
        simp only [hdc]
        by_cases h5 : baggageReject bag hbg = true
        · rw [if_pos h5]
          exact iff_of_true rfl (Or.inr (Or.inr (Or.inr (hbagg.mp h5))))
        · rw [if_neg h5]
          refine iff_of_false (by simp) ?_
          rintro (h | h | ⟨h, _⟩ | h)
          · exact h1 h
          · exact h2 (hstops.mpr h)
          · exact h3 h
          · exact h5 (hbagg.mpr h)

/-- C1 (amended): once the per-date quotes are reduced to a best flight,
the destination's result is absent exactly when the best flight is
rejected by the code's predicate: price strictly above the ceiling
(equality passes), or stops above `maxStops` when `maxStops ≥ 0`, or —
when `maxDuration > 0` — the duration is UNKNOWN or exceeds
`maxDuration`, or baggage is required but absent.  An unknown duration
passes only while the duration filter is inactive; with an active filter
the `None > int` comparison raises and the destination is dropped. -/
theorem c1_filter_characterisation (mb : Rat) (ms md : Int) (bag : Bool)
    (quotes : List FlightQuote) (b : FlightQuote) (hb : bestFlight quotes = some b) :
    destinationResult mb ms md bag quotes = none ↔ codeFilterReject mb ms md bag b := by
  unfold destinationResult
  rw [hb]
  exact applyFilters_none_iff mb ms md bag b

/-- C1 witness at a concrete quote that is reduced and then filtered. -/
theorem c1_filter_characterisation_witness :
    destinationResult 200 (-1) 5 false [cexPassQuote] = none ↔
      codeFilterReject 200 (-1) 5 false cexPassQuote :=
  c1_filter_characterisation 200 (-1) 5 false [cexPassQuote] cexPassQuote rfl

/-- C1 counterexample: a best flight with unknown duration under an
active duration filter (`maxDuration = 5`) passes the claim's predicate
(unknown duration passes) yet the code yields absent — the `None > int`
comparison raises `TypeError`, caught by the destination handler. -/
theorem c1_counterexample :
    bestFlight [cexUnknownDur] = some cexUnknownDur
      ∧ destinationResult 200 (-1) 5 false [cexUnknownDur] = none
      ∧ ¬ claimFilterReject 200 (-1) 5 false cexUnknownDur := by
  refine ⟨by decide, by decide, ?_⟩
  norm_num [claimFilterReject, cexUnknownDur]
  intro x hx
  exact absurd hx (by simp)

/-- C6: for a surviving flight quote, package assembly yields absent
exactly when the budget residual is non-positive (flight price at or
above the total budget — the `NegativeResidual` condition, which forces
the ceiling-respecting lodging provider to return nothing) or the lodging
provider returns an empty sequence; otherwise the provider's first
(best-ranked) quote is selected unchanged, with no re-ranking and no
error. -/
theorem c6_assembly (budget nights minRating : Rat) (accType code : String)
    (fp : Rat) (cands : List Hotel)
    (hn : 0 < nights) (hpos : ∀ h ∈ cands, 0 < h.pricePerNight) :
    (assemblePackage budget nights minRating accType code fp cands = none ↔
        budget ≤ fp
          ∨ hotelsFilter (nightlyCeiling budget fp nights) minRating accType cands = [])
      ∧ ∀ h t,
          hotelsFilter (nightlyCeiling budget fp nights) minRating accType cands = h :: t →
          assemblePackage budget nights minRating accType code fp cands =
            some (mkPackage budget nights code fp h.pricePerNight) := by
  have hresid : budget ≤ fp →
      hotelsFilter (nightlyCeiling budget fp nights) minRating accType cands = [] := by
    intro hfp
    rcases hflt : hotelsFilter (nightlyCeiling budget fp nights) minRating accType cands
      with _ | ⟨h, t⟩
    · rfl
    · exfalso
      have hmemf : h ∈ hotelsFilter (nightlyCeiling budget fp nights) minRating accType cands := by
        rw [hflt]; exact List.mem_cons_self _ _
      unfold hotelsFilter at hmemf
      obtain ⟨hmem, hkeep⟩ := List.mem_filter.mp hmemf
      unfold hotelKeep at hkeep
      simp only [Bool.and_eq_true, Bool.not_eq_true', decide_eq_false_iff_not, not_lt] at hkeep
      have hple : h.pricePerNight ≤ nightlyCeiling budget fp nights := hkeep.1.1
      unfold nightlyCeiling at hple
      rw [le_div_iff₀ hn] at hple
      have hp := hpos h hmem
      nlinarith [mul_pos hp hn]
  constructor
  · constructor
    · intro hnone
      rcases hflt : hotelsFilter (nightlyCeiling budget fp nights) minRating accType cands
        with _ | ⟨h, t⟩
      · exact Or.inr rfl
      · exfalso
        unfold assemblePackage at hnone
        rw [hflt] at hnone
        exact Option.noConfusion hnone
    · rintro (hfp | hflt)
      · unfold assemblePackage
        rw [hresid hfp]
      · unfold assemblePackage
        rw [hflt]
  · intro h t hflt
    unfold assemblePackage
    rw [hflt]

/-- C6 witness at the spec's concrete scenario. -/
theorem c6_assembly_witness :
    (assemblePackage 1500 7 0 ("all") ("BCN") 500 [cexHotel] = none ↔
        (1500 : Rat) ≤ 500
          ∨ hotelsFilter (nightlyCeiling 1500 500 7) 0 ("all") [cexHotel] = [])
      ∧ ∀ h t, hotelsFilter (nightlyCeiling 1500 500 7) 0 ("all") [cexHotel] = h :: t →
          assemblePackage 1500 7 0 ("all") ("BCN") 500 [cexHotel] =
            some (mkPackage 1500 7 ("BCN") 500 h.pricePerNight) :=
  c6_assembly 1500 7 0 ("all") ("BCN") 500 [cexHotel] (by norm_num)
    (by intro h hh; rw [List.mem_singleton.mp hh]; norm_num [cexHotel])

/-- C9 (amended): `parse_period_to_dates` anchors the check-in at the
15th of the resolved month and places the check-out exactly `nights` days
later; it fails when the descriptor does not resolve to a known month
name and an in-range year (or the check-out leaves `datetime`'s
representable range); `nights` is NOT validated — any `nights` value,
including values below 1, yields a date pair. -/
theorem c9_checkout_window :
    (∀ (period : String) (nights : Int),
        resolveYM period = none → parse_period_to_dates period nights = none)
      ∧ ∀ (period : String) (nights : Int) (y m : Nat), resolveYM period = some (y, m) →
          minRataDie ≤ rataDie y m 15 + nights → rataDie y m 15 + nights ≤ maxRataDie →
          parse_period_to_dates period nights =
            some (rataDie y m 15, rataDie y m 15 + nights) := by
  constructor
  · intro period nights h
    unfold parse_period_to_dates
    rw [h]
  · intro period nights y m h hlo hhi
    simp only [parse_period_to_dates, h]
    rw [if_pos ⟨hlo, hhi⟩]

/-- C9 witness at the descriptor "Octobre 2026" with 3 nights. -/
theorem c9_checkout_window_witness :
    parse_period_to_dates ("Octobre 2026") 3 =
      some (rataDie 2026 10 15, rataDie 2026 10 15 + 3) :=
  c9_checkout_window.2 ("Octobre 2026") 3 2026 10 (by decide) (by decide) (by decide)

/-- C9 counterexample: `nights = 0 < 1` is accepted — the code returns a
date pair (check-out equal to check-in) instead of failing with
`InvalidNights`; no nights validation exists anywhere in the code. -/
theorem c9_counterexample :
    parse_period_to_dates ("Octobre 2026") 0 =
        some (rataDie 2026 10 15, rataDie 2026 10 15)
      ∧ (0 : Int) < 1 :=
  ⟨by decide, by decide⟩

end Flights2Go
